import Mathlib

/-!
Shallow embedding of the Dashboard Data Controller implemented in
`src/dashboard/src/pages/Testing.tsx`, together with theorems settling the
claims about its behaviour.  Records mirror the TypeScript interfaces;
the stateful React component is embedded as explicit state passing, with
each asynchronous handler modelled as a pure function from the backend's
responses and the pre-invocation state to the post-invocation state plus
its observable effects (HTTP posts issued, toasts shown, polls started).
-/

namespace VoiceAgentDashboard

/-- Mirrors the `TestClient` interface of Testing.tsx. -/
structure TestClient where
  id : String
  name : String
  phone : String
  email : Option String
  status : String
  total_attempts : Nat
  created_at : String
  last_call_outcome : Option String
deriving DecidableEq, Repr

/-- Mirrors the `TestAgent` interface of Testing.tsx. -/
structure TestAgent where
  id : String
  name : String
  email : String
  timezone : String
  specialties : List String
  working_hours : String
  google_calendar_id : Option String
deriving DecidableEq, Repr

/-- Mirrors the `CallLog` interface of Testing.tsx. -/
structure CallLog where
  call_id : String
  call_sid : String
  client_name : String
  client_phone : String
  agent_name : Option String
  status : String
  outcome : String
  duration : String
  started_at : String
  completed_at : Option String
  summary : Option String
  is_test_call : Bool
  conversation_turns : Option Nat
deriving DecidableEq, Repr

/-- Mirrors the `CallSummary` interface of Testing.tsx.  The JSON number
`call_score` is modelled as a rational. -/
structure CallSummary where
  outcome : String
  sentiment : String
  key_points : List String
  customer_concerns : List String
  recommended_actions : List String
  agent_notes : String
  urgency : String
  follow_up_timeframe : String
  conversation_quality : String
  call_score : ℚ
deriving DecidableEq, Repr

/-- Mirrors the `ActiveCall` interface of Testing.tsx. -/
structure ActiveCall where
  call_id : String
  call_sid : String
  client_name : String
  client_phone : String
  agent_name : String
  status : String
  started_at : String
  duration_seconds : Nat
  current_stage : String
  conversation_turns : Nat
  last_activity : String
deriving DecidableEq, Repr

/-- Component record `voice_processor` of the `SystemHealth` interface. -/
structure VoiceProcessorHealth where
  configured : Bool
  status : String
deriving DecidableEq, Repr

/-- Component record `hybrid_tts` of the `SystemHealth` interface.  The
opaque `Record<string, unknown>` payload is modelled as raw key/text pairs;
the controller never inspects it. -/
structure HybridTtsHealth where
  configured : Bool
  status : String
  stats : Option (List (String × String))
deriving DecidableEq, Repr

/-- Component record `lyzr` of the `SystemHealth` interface. -/
structure LyzrHealth where
  configured : Bool
  status : String
  conversation_agent : Option String
  summary_agent : Option String
  test_latency_ms : Option ℚ
deriving DecidableEq, Repr

/-- Component record `elevenlabs` of the `SystemHealth` interface. -/
structure ElevenlabsHealth where
  configured : Bool
  status : String
  test_latency_ms : Option ℚ
  default_voice : Option String
deriving DecidableEq, Repr

/-- Component record `deepgram` of the `SystemHealth` interface. -/
structure DeepgramHealth where
  configured : Bool
  status : String
  test_latency_ms : Option ℚ
  model : Option String
deriving DecidableEq, Repr

/-- Component record `database` of the `SystemHealth` interface. -/
structure DatabaseHealth where
  connected : Bool
  status : String
deriving DecidableEq, Repr

/-- Component record `redis` of the `SystemHealth` interface. -/
structure RedisHealth where
  connected : Bool
  status : String
deriving DecidableEq, Repr

/-- Component record `twilio` of the `SystemHealth` interface. -/
structure TwilioHealth where
  configured : Bool
  status : String
  phone_number : Option String
deriving DecidableEq, Repr

/-- The `components` field of the `SystemHealth` interface. -/
structure HealthComponents where
  voice_processor : VoiceProcessorHealth
  hybrid_tts : HybridTtsHealth
  lyzr : LyzrHealth
  elevenlabs : ElevenlabsHealth
  deepgram : DeepgramHealth
  database : DatabaseHealth
  redis : RedisHealth
  twilio : TwilioHealth
deriving DecidableEq, Repr

/-- An entry of the `alerts` array of the `SystemHealth` interface. -/
structure HealthAlert where
  level : String
  service : String
  message : String
deriving DecidableEq, Repr

/-- The `campaign` field of the `SystemHealth` interface. -/
structure CampaignSummary where
  total_clients : Nat
  completed_calls : Nat
  completion_rate : ℚ
deriving DecidableEq, Repr

/-- Mirrors the `SystemHealth` interface of Testing.tsx.  The opaque
`metrics` payload is modelled as raw key/text pairs. -/
structure SystemHealth where
  status : String
  timestamp : String
  components : HealthComponents
  metrics : Option (List (String × String))
  alerts : Option (List HealthAlert)
  campaign : Option CampaignSummary
deriving DecidableEq, Repr

/-- Mirrors the `TestStats` interface of Testing.tsx.  The JSON number
`success_rate` is modelled as a rational. -/
structure TestStats where
  total_test_calls : Nat
  successful_calls : Nat
  failed_calls : Nat
  avg_duration : String
  success_rate : ℚ
  avg_response_time : String
deriving DecidableEq, Repr

/-- The `newClient` form state of the component. -/
structure NewClientForm where
  first_name : String
  last_name : String
  phone : String
  email : String
  notes : String
deriving DecidableEq, Repr

/-- The `newAgent` form state of the component. -/
structure NewAgentForm where
  name : String
  email : String
  google_calendar_id : String
  timezone : String
deriving DecidableEq, Repr

/-- The complete `useState` state of the `Testing` component, one field per
`useState` hook, in source order. -/
structure ControllerState where
  newClient : NewClientForm
  newAgent : NewAgentForm
  isCreatingClient : Bool
  isCreatingAgent : Bool
  isCallInProgress : Bool
  isLoadingData : Bool
  testClients : List TestClient
  testAgents : List TestAgent
  callLogs : List CallLog
  activeCalls : List ActiveCall
  selectedClient : String
  selectedAgent : String
  systemHealth : Option SystemHealth
  testStats : Option TestStats
  selectedCallSummary : Option CallSummary
  activeTab : String
deriving DecidableEq, Repr

/-- The initial state of the component, from the `useState` initialisers. -/
def initControllerState : ControllerState where
  newClient := { first_name := "", last_name := "", phone := "", email := "", notes := "" }
  newAgent := { name := "", email := "", google_calendar_id := "", timezone := "America/New_York" }
  isCreatingClient := false
  isCreatingAgent := false
  isCallInProgress := false
  isLoadingData := false
  testClients := []
  testAgents := []
  callLogs := []
  activeCalls := []
  selectedClient := ""
  selectedAgent := ""
  systemHealth := none
  testStats := none
  selectedCallSummary := none
  activeTab := "overview"

/-- A toast notification, as issued through the `sonner` toast API. -/
structure Toast where
  kind : String
  title : String
  description : Option String
deriving DecidableEq, Repr

/-- Outcome of one `fetch` + `res.json()` pair: either the promise chain
resolved (with the HTTP `res.ok` flag and the parsed payload), or it threw
(network failure or unparsable body), which lands in the enclosing catch. -/
inductive FetchOutcome (α : Type) where
  | success (ok : Bool) (data : α)
  | failure
deriving DecidableEq, Repr

/-- JavaScript `v || d` for an optional string: `null`/`undefined` and the
empty string are falsy and select the fallback. -/
def jsOr (v : Option String) (d : String) : String :=
  match v with
  | some s => if s == "" then d else s
  | none => d

/-- The resource kinds accepted by `loadData` (its `type` parameter). -/
inductive ResType where
  | clients
  | agents
  | callLogs
  | activeCalls
  | health
  | stats
deriving DecidableEq, BEq, Repr

/-- Condition `!type || type === "r"` guarding each branch of `loadData`. -/
def runBranch (type : Option ResType) (r : ResType) : Bool :=
  match type with
  | none => true
  | some t => t == r

/-- The backend responses consumed by one `loadData` invocation.  Each
payload is the named array field of the parsed JSON body, `none` when the
field is absent (`clientsData.clients || []` etc.). -/
structure LoadResponses where
  clients : FetchOutcome (Option (List TestClient))
  agents : FetchOutcome (Option (List TestAgent))
  callLogs : FetchOutcome (Option (List CallLog))
  activeCalls : FetchOutcome (Option (List ActiveCall))
  health : FetchOutcome SystemHealth
deriving DecidableEq, Repr

/-- The call outcomes counted as successful by the stats computation in
`loadData`. -/
def successOutcomes : List String :=
  ["interested", "not_interested", "dnc_requested",
   "scheduled_morning", "scheduled_afternoon"]

/-- The stats computation of the `stats` branch of `loadData`: filter the
given log collection for test calls, count the successful outcomes, and
derive the aggregate record (note the success rate is a percentage). -/
def computeTestStats (logs : List CallLog) : TestStats :=
  let testCalls := logs.filter (fun call => call.is_test_call)
  let successfulCalls := testCalls.filter (fun call => successOutcomes.contains call.outcome)
  { total_test_calls := testCalls.length
    successful_calls := successfulCalls.length
    failed_calls := testCalls.length - successfulCalls.length
    avg_duration := if testCalls.length > 0 then "2m 34s" else "0s"
    success_rate :=
      if testCalls.length > 0 then
        ((successfulCalls.length : ℚ) / (testCalls.length : ℚ)) * 100
      else 0
    avg_response_time := "1.2s" }

/-- Sequencing of the branches inside the single try block of `loadData`:
a step that threw (second component `true`) skips every later branch and
falls through to the outer catch with the state mutated so far. -/
def andThen (r : ControllerState × Bool) (f : ControllerState → ControllerState × Bool) :
    ControllerState × Bool :=
  if r.2 then r else f r.1

/-- The `clients` branch of `loadData`: on a resolved response store the
`clients` array (empty fallback); a thrown fetch escapes to the catch. -/
def clientsBranch (type : Option ResType) (resp : LoadResponses) (st : ControllerState) :
    ControllerState × Bool :=
  if runBranch type ResType.clients then
    match resp.clients with
    | FetchOutcome.success _ d => ({ st with testClients := d.getD [] }, false)
    | FetchOutcome.failure => (st, true)
  else (st, false)

/-- The `agents` branch of `loadData`. -/
def agentsBranch (type : Option ResType) (resp : LoadResponses) (st : ControllerState) :
    ControllerState × Bool :=
  if runBranch type ResType.agents then
    match resp.agents with
    | FetchOutcome.success _ d => ({ st with testAgents := d.getD [] }, false)
    | FetchOutcome.failure => (st, true)
  else (st, false)

/-- The `call-logs` branch of `loadData`: the stored collection is the
fetched `logs` array restricted to entries with a truthy `is_test_call`. -/
def callLogsBranch (type : Option ResType) (resp : LoadResponses) (st : ControllerState) :
    ControllerState × Bool :=
  if runBranch type ResType.callLogs then
    match resp.callLogs with
    | FetchOutcome.success _ d =>
        ({ st with callLogs := (d.getD []).filter (fun log => log.is_test_call) }, false)
    | FetchOutcome.failure => (st, true)
  else (st, false)

/-- The `active-calls` branch of `loadData`: the store is replaced only
when `res.ok` holds; a non-ok response is skipped silently. -/
def activeCallsBranch (type : Option ResType) (resp : LoadResponses) (st : ControllerState) :
    ControllerState × Bool :=
  if runBranch type ResType.activeCalls then
    match resp.activeCalls with
    | FetchOutcome.success ok d =>
        (if ok then { st with activeCalls := d.getD [] } else st, false)
    | FetchOutcome.failure => (st, true)
  else (st, false)

/-- The `health` branch of `loadData`: it has its own inner try/catch, so
it never escapes to the outer catch; a non-ok response or a thrown fetch
resets the stored snapshot to `null`. -/
def healthBranch (type : Option ResType) (resp : LoadResponses) (st : ControllerState) :
    ControllerState × Bool :=
  if runBranch type ResType.health then
    match resp.health with
    | FetchOutcome.success ok d =>
        (if ok then { st with systemHealth := some d } else { st with systemHealth := none },
         false)
    | FetchOutcome.failure => ({ st with systemHealth := none }, false)
  else (st, false)

/-- The `stats` branch of `loadData`: derives `TestStats` from the
`callLogs` closure variable, i.e. from the log collection as it was when
the invocation started (`closureLogs`), not from any collection stored
earlier in the same invocation. -/
def statsBranch (type : Option ResType) (closureLogs : List CallLog) (st : ControllerState) :
    ControllerState × Bool :=
  if runBranch type ResType.stats then
    ({ st with testStats := some (computeTestStats closureLogs) }, false)
  else (st, false)

/-- The body of the single try block of `loadData`: the six branches in
source order, each skipped once an earlier branch threw. -/
def loadDataBody (type : Option ResType) (resp : LoadResponses) (s0 : ControllerState) :
    ControllerState × Bool :=
  andThen (clientsBranch type resp s0) (fun st1 =>
  andThen (agentsBranch type resp st1) (fun st2 =>
  andThen (callLogsBranch type resp st2) (fun st3 =>
  andThen (activeCallsBranch type resp st3) (fun st4 =>
  andThen (healthBranch type resp st4) (fun st5 =>
  statsBranch type s0.callLogs st5)))))

/-- The toast issued by the outer catch of `loadData`. -/
def loadErrorToast : Toast where
  kind := "error"
  title := "Failed to load data"
  description := some "Please check the API connection and try again."

/-- Result of a controller operation: the post-invocation state and the
toasts it showed. -/
structure LoadEffect where
  state : ControllerState
  toasts : List Toast
deriving DecidableEq, Repr

/-- The `loadData` handler of Testing.tsx: sets the loading flag, runs the
guarded branches inside one try, converts a thrown branch into the generic
error toast, and finally clears the loading flag. -/
def loadData (type : Option ResType) (resp : LoadResponses) (s : ControllerState) :
    LoadEffect :=
  let s1 := { s with isLoadingData := true }
  let r := loadDataBody type resp s1
  { state := { r.1 with isLoadingData := false }
    toasts := if r.2 then [loadErrorToast] else [] }

/-- Parsed JSON body of a `POST /api/dashboard/test-call` response, with
the fields read by `handleStartTestCall`. -/
structure StartCallBody where
  success : Bool
  call_id : String
  call_sid : String
  client_name : String
  client_phone : String
  agent_name : String
  status : Option String
  detail : Option String
deriving DecidableEq, Repr

/-- Outcome of the call-initiation request of `handleStartTestCall`:
either its fetch/json chain resolved to a parsed body, or it threw. -/
inductive StartCallResult where
  | parsed (r : StartCallBody)
  | failure
deriving DecidableEq, Repr

/-- Observable result of one `handleStartTestCall` invocation: the new
state, the number of call-initiation POSTs issued, the toasts shown, and
the call SIDs for which a polling subroutine was started. -/
structure StartCallEffect where
  state : ControllerState
  posts : Nat
  toasts : List Toast
  pollsStarted : List String
deriving DecidableEq, Repr

/-- The `newActiveCall` record synthesized by `handleStartTestCall` from a
successful initiation response: the optimistic insert.  The `now` argument
stands for `new Date().toISOString()`. -/
def optimisticActiveCall (r : StartCallBody) (now : String) : ActiveCall where
  call_id := r.call_id
  call_sid := r.call_sid
  client_name := r.client_name
  client_phone := r.client_phone
  agent_name := r.agent_name
  status := jsOr r.status "initiated"
  started_at := now
  duration_seconds := 0
  current_stage := "call_initiated"
  conversation_turns := 0
  last_activity := now

/-- The `handleStartTestCall` handler of Testing.tsx: returns immediately
when either selector is empty (falsy); otherwise issues the POST once and,
on `success: true`, shows the success toast, appends the optimistic
`ActiveCall` record and starts polling for the returned SID; on
`success: false` or a thrown request it only shows an error toast. -/
def handleStartTestCall (resp : StartCallResult) (now : String) (s : ControllerState) :
    StartCallEffect :=
  if s.selectedClient == "" || s.selectedAgent == "" then
    { state := s, posts := 0, toasts := [], pollsStarted := [] }
  else
    let s1 := { s with isCallInProgress := true }
    match resp with
    | StartCallResult.parsed r =>
        if r.success then
          { state := { s1 with
                activeCalls := s1.activeCalls ++ [optimisticActiveCall r now]
                isCallInProgress := false }
            posts := 1
            toasts := [{ kind := "success"
                         title := "Real test call initiated!"
                         description :=
                           some ("Calling " ++ r.client_phone ++ " - Call SID: " ++ r.call_sid) }]
            pollsStarted := [r.call_sid] }
        else
          { state := { s1 with isCallInProgress := false }
            posts := 1
            toasts := [{ kind := "error"
                         title := "Test call failed"
                         description := some (jsOr r.detail "Failed to start test call.") }]
            pollsStarted := [] }
    | StartCallResult.failure =>
        { state := { s1 with isCallInProgress := false }
          posts := 1
          toasts := [{ kind := "error"
                       title := "An unexpected error occurred."
                       description := none }]
          pollsStarted := [] }

/-- Outcome of one call-status fetch inside the polling interval of
`pollCallStatus`: a resolved, ok response with the parsed `status` and
`stage` fields; a resolved but non-ok response (skipped silently); or a
thrown fetch (logged, polling continues). -/
inductive StatusFetchResult where
  | ok (status : String) (stage : String)
  | notOk
  | failure
deriving DecidableEq, Repr

/-- The terminal statuses that stop polling in `pollCallStatus`. -/
def terminalStatuses : List String := ["completed", "failed", "busy", "no_answer"]

/-- Observable result of one tick of the polling interval: the new state,
whether `clearInterval` was called on the polling interval, and which
`loadData` refreshes were triggered. -/
structure PollTickEffect where
  state : ControllerState
  cleared : Bool
  refreshes : List ResType
deriving DecidableEq, Repr

/-- One tick of the polling interval created by `pollCallStatus` for
`callSid`: on an ok response first update the matching `ActiveCall`'s
status and stage in place by SID, then, if the status is terminal, clear
the interval, trigger refreshes of call-logs and clients, and remove the
entry for the SID; anything else leaves the state untouched and polling
running. -/
def pollTick (callSid : String) (r : StatusFetchResult) (s : ControllerState) :
    PollTickEffect :=
  match r with
  | StatusFetchResult.ok status stage =>
      let s1 := { s with activeCalls := s.activeCalls.map (fun call =>
          if call.call_sid == callSid then
            { call with status := status, current_stage := stage }
          else call) }
      if terminalStatuses.contains status then
        { state := { s1 with
              activeCalls := s1.activeCalls.filter (fun call => call.call_sid != callSid) }
          cleared := true
          refreshes := [ResType.callLogs, ResType.clients] }
      else
        { state := s1, cleared := false, refreshes := [] }
  | StatusFetchResult.notOk => { state := s, cleared := false, refreshes := [] }
  | StatusFetchResult.failure => { state := s, cleared := false, refreshes := [] }

/-- The polling interval period of `pollCallStatus`, in milliseconds
(`setInterval(..., 5000)`). -/
def pollIntervalMs : Nat := 5000

/-- The polling ceiling of `pollCallStatus`, in milliseconds
(`setTimeout(() => clearInterval(pollInterval), 300000)`). -/
def pollCeilingMs : Nat := 300000

/-- The wall-clock time at which the k-th tick of the polling interval
fires, counting from the `pollCallStatus` invocation (the first tick fires
one full period after `setInterval`). -/
def tickTime (k : Nat) : Nat := (k + 1) * pollIntervalMs

/-- Whether the k-th status response reports a terminal status (only an
ok response can: the terminal test reads `statusData.status`). -/
def terminalAt (resp : Nat → StatusFetchResult) (k : Nat) : Bool :=
  match resp k with
  | StatusFetchResult.ok status _ => terminalStatuses.contains status
  | StatusFetchResult.notOk => false
  | StatusFetchResult.failure => false

/-- Whether the polling interval is still registered just before its k-th
tick: it stays live until a tick that both fired (within the ceiling,
before the timeout clears the interval) and observed a terminal status.
The ceiling timeout itself is accounted for in `tickFires`. -/
def pollLive (resp : Nat → StatusFetchResult) : Nat → Bool
  | 0 => true
  | k + 1 =>
      pollLive resp k &&
        !(decide (tickTime k ≤ pollCeilingMs) && terminalAt resp k)

/-- Whether the k-th tick of the polling interval fires (and so issues a
status fetch): the interval must still be live and the tick must be due no
later than the ceiling timeout that clears the interval.  A tick due at
the same instant as the timeout fires first, because the interval was
registered before the timeout. -/
def tickFires (resp : Nat → StatusFetchResult) (k : Nat) : Bool :=
  pollLive resp k && decide (tickTime k ≤ pollCeilingMs)

/-- The timers the component creates: the background refresh interval of
the mount effect, and the polling interval plus ceiling timeout that
`pollCallStatus` creates per monitored call SID. -/
inductive TimerKind where
  | backgroundRefresh
  | pollTicker (sid : String)
  | pollCeiling (sid : String)
deriving DecidableEq, Repr

/-- The `useEffect` cleanup of the component, applied at unmount:
`return () => clearInterval(interval)` clears exactly the background
refresh interval; no cleanup references the timers of `pollCallStatus`. -/
def unmountCleanup (live : List TimerKind) : List TimerKind :=
  live.filter (fun k => k != TimerKind.backgroundRefresh)

/-- The timers created by the polling subroutines started by one
`handleStartTestCall` invocation. -/
def timersOfStart (eff : StartCallEffect) : List TimerKind :=
  (eff.pollsStarted.map (fun sid => [TimerKind.pollTicker sid, TimerKind.pollCeiling sid])).flatten

/-- The interleaved operations that modify the `activeCalls` collection:
a `handleStartTestCall` invocation, one tick of a polling interval, and an
active-calls re-fetch (`loadData("active-calls")`). -/
inductive ControllerEvent where
  | startCall (resp : StartCallResult) (now : String)
  | pollTickEv (sid : String) (r : StatusFetchResult)
  | refetchActive (resp : LoadResponses)
deriving Repr

/-- State transition of one controller event. -/
def stepEvent (e : ControllerEvent) (s : ControllerState) : ControllerState :=
  match e with
  | ControllerEvent.startCall resp now => (handleStartTestCall resp now s).state
  | ControllerEvent.pollTickEv sid r => (pollTick sid r s).state
  | ControllerEvent.refetchActive resp => (loadData (some ResType.activeCalls) resp s).state

/-- Run a sequence of controller events from a state. -/
def runEvents (es : List ControllerEvent) (s : ControllerState) : ControllerState :=
  es.foldl (fun st e => stepEvent e st) s

/-- The call SIDs of the stored `activeCalls` collection, in order. -/
def sids (s : ControllerState) : List String :=
  s.activeCalls.map (fun call => call.call_sid)

/-- Whether an event is a successful `startTestCall` for the given SID. -/
def startsFor (sid : String) (e : ControllerEvent) : Bool :=
  match e with
  | ControllerEvent.startCall (StartCallResult.parsed r) _ => r.success && r.call_sid == sid
  | ControllerEvent.startCall StartCallResult.failure _ => false
  | ControllerEvent.pollTickEv _ _ => false
  | ControllerEvent.refetchActive _ => false

/-- Event restriction under which the per-SID uniqueness invariant is
provable: polling ticks are unrestricted, a successful start must return a
SID not currently stored, and wholesale active-calls re-fetches (which
replace the collection with arbitrary backend data) are excluded. -/
def eventAllowed (e : ControllerEvent) (s : ControllerState) : Bool :=
  match e with
  | ControllerEvent.startCall (StartCallResult.parsed r) _ =>
      !r.success || !(sids s).contains r.call_sid
  | ControllerEvent.startCall StartCallResult.failure _ => true
  | ControllerEvent.pollTickEv _ _ => true
  | ControllerEvent.refetchActive _ => false

/-- Pointwise `eventAllowed` along the execution of a trace. -/
def goodTrace : List ControllerEvent → ControllerState → Bool
  | [], _ => true
  | e :: es, s => eventAllowed e s && goodTrace es (stepEvent e s)

/-! Concrete fixtures used by counterexamples and witnesses. -/

/-- A test-flagged call log with a successful outcome. -/
def logInterested : CallLog where
  call_id := "call-9"
  call_sid := "CA9"
  client_name := "Jane Doe"
  client_phone := "+15551234567"
  agent_name := some "Agent A"
  status := "completed"
  outcome := "interested"
  duration := "1m 2s"
  started_at := "2025-01-01T00:00:00Z"
  completed_at := some "2025-01-01T00:01:02Z"
  summary := none
  is_test_call := true
  conversation_turns := some 4

/-- A state with both the client and the agent selector filled in. -/
def sStart : ControllerState :=
  { initControllerState with selectedClient := "client-a", selectedAgent := "agent-b" }

/-- A successful call-initiation response for call SID CA1. -/
def startOkCA1 : StartCallBody where
  success := true
  call_id := "call-1"
  call_sid := "CA1"
  client_name := "Jane Doe"
  client_phone := "+15551234567"
  agent_name := "Agent A"
  status := none
  detail := none

/-- An in-flight active call on SID CA7, used to witness the terminal
branch of the poll-tick theorem. -/
def acC3 : ActiveCall where
  call_id := "call-7"
  call_sid := "CA7"
  client_name := "Jane Doe"
  client_phone := "+15551234567"
  agent_name := "Agent A"
  status := "in_progress"
  started_at := "2025-01-01T00:00:00Z"
  duration_seconds := 30
  current_stage := "conversation"
  conversation_turns := 2
  last_activity := "2025-01-01T00:00:30Z"

/-- A state holding exactly the CA7 active call. -/
def sC3 : ControllerState := { initControllerState with activeCalls := [acC3] }

/-- The backend body of the C9 scenario: `success:false, detail:"agent busy"`. -/
def startBusyBody : StartCallBody where
  success := false
  call_id := ""
  call_sid := ""
  client_name := ""
  client_phone := ""
  agent_name := ""
  status := none
  detail := some "agent busy"

/-- The stored state belonging to one resource kind is the same in two
states. -/
def resourceUnchanged (r : ResType) (s s' : ControllerState) : Prop :=
  match r with
  | ResType.clients => s'.testClients = s.testClients
  | ResType.agents => s'.testAgents = s.testAgents
  | ResType.callLogs => s'.callLogs = s.callLogs
  | ResType.activeCalls => s'.activeCalls = s.activeCalls
  | ResType.health => s'.systemHealth = s.systemHealth
  | ResType.stats => s'.testStats = s.testStats

/-- A test agent already stored before the C1 scenario. -/
def agentOld : TestAgent where
  id := "agent-0"
  name := "Old Agent"
  email := "old@example.com"
  timezone := "UTC"
  specialties := []
  working_hours := "9am-5pm"
  google_calendar_id := none

/-- The test agent the backend would return in the C1 scenario. -/
def agentA : TestAgent where
  id := "agent-1"
  name := "Agent A"
  email := "a@example.com"
  timezone := "America/New_York"
  specialties := ["solar"]
  working_hours := "9am-5pm"
  google_calendar_id := none

/-- C1 scenario responses: the clients fetch throws while the agents fetch
would resolve with one agent. -/
def respC1 : LoadResponses where
  clients := FetchOutcome.failure
  agents := FetchOutcome.success true (some [agentA])
  callLogs := FetchOutcome.success true (some [])
  activeCalls := FetchOutcome.success true (some [])
  health := FetchOutcome.failure

/-- C1 scenario starting state: one agent already stored. -/
def sC1 : ControllerState := { initControllerState with testAgents := [agentOld] }

/-- A freshly fetched test-flagged log for the C7 scenario. -/
def freshTestLog : CallLog where
  call_id := "call-11"
  call_sid := "CA11"
  client_name := "Jane Doe"
  client_phone := "+15551234567"
  agent_name := some "Agent A"
  status := "completed"
  outcome := "interested"
  duration := "2m 1s"
  started_at := "2025-01-01T00:00:00Z"
  completed_at := some "2025-01-01T00:02:01Z"
  summary := none
  is_test_call := true
  conversation_turns := some 5

/-- C7 scenario responses for a full load: every fetch resolves and the
call-logs fetch returns one fresh test log. -/
def respC7 : LoadResponses where
  clients := FetchOutcome.success true (some [])
  agents := FetchOutcome.success true (some [])
  callLogs := FetchOutcome.success true (some [freshTestLog])
  activeCalls := FetchOutcome.success true (some [])
  health := FetchOutcome.failure

/-- The CA1 entry the backend still lists in its active-calls resource
after the call terminated, for the C4 scenario. -/
def acRefetchCA1 : ActiveCall where
  call_id := "call-1"
  call_sid := "CA1"
  client_name := "Jane Doe"
  client_phone := "+15551234567"
  agent_name := "Agent A"
  status := "in_progress"
  started_at := "2025-01-01T00:00:00Z"
  duration_seconds := 20
  current_stage := "conversation"
  conversation_turns := 1
  last_activity := "2025-01-01T00:00:20Z"

/-- C4 scenario responses for an active-calls re-fetch that still lists
the terminated CA1 call. -/
def respRefetchCA1 : LoadResponses where
  clients := FetchOutcome.failure
  agents := FetchOutcome.failure
  callLogs := FetchOutcome.failure
  activeCalls := FetchOutcome.success true (some [acRefetchCA1])
  health := FetchOutcome.failure

/-- C4 scenario: a successful start for CA1. -/
def evC4Start : ControllerEvent :=
  ControllerEvent.startCall (StartCallResult.parsed startOkCA1) "2025-01-01T00:00:00Z"

/-- C4 scenario: a terminal poll tick for CA1. -/
def evC4Term : ControllerEvent :=
  ControllerEvent.pollTickEv "CA1" (StatusFetchResult.ok "completed" "wrapped_up")

/-- C4 scenario: an active-calls re-fetch that still lists CA1. -/
def evC4Refetch : ControllerEvent := ControllerEvent.refetchActive respRefetchCA1

/-- The effect of the C5 scenario start: handleStartTestCall succeeds for
CA1 and starts its polling subroutine. -/
def effC5 : StartCallEffect :=
  handleStartTestCall (StartCallResult.parsed startOkCA1) "2025-01-01T00:00:00Z" sStart

theorem runEvents_nil (s : ControllerState) : runEvents [] s = s := rfl

theorem runEvents_cons (e : ControllerEvent) (es : List ControllerEvent) (s : ControllerState) :
    runEvents (e :: es) s = runEvents es (stepEvent e s) := rfl

/-- C6 as frozen states `success_rate == successful_calls / total_test_calls`;
the source multiplies that quotient by 100 (a percentage).  With one
successful test call the code stores 100 where the claim demands 1. -/
theorem c6_counterexample :
    (computeTestStats [logInterested]).total_test_calls = 1 ∧
    (computeTestStats [logInterested]).successful_calls = 1 ∧
    (computeTestStats [logInterested]).success_rate = 100 ∧
    ((computeTestStats [logInterested]).successful_calls : ℚ) /
        ((computeTestStats [logInterested]).total_test_calls : ℚ) = 1 ∧
    (100 : ℚ) ≠ 1 := by
  refine ⟨rfl, rfl, ?_, ?_, by norm_num⟩
  · norm_num [computeTestStats, logInterested, successOutcomes]
  · norm_num [computeTestStats, logInterested, successOutcomes]

/-- C6 (amended): for the stats derived from any log collection,
`successful_calls + failed_calls = total_test_calls`; when
`total_test_calls` is positive the stored `success_rate` equals
`successful_calls / total_test_calls` multiplied by 100 (a percentage,
not the bare quotient of the claim); when `total_test_calls = 0` the
stored rate is 0 and no division happens. -/
theorem c6_stats_identities (logs : List CallLog) :
    (computeTestStats logs).successful_calls + (computeTestStats logs).failed_calls
        = (computeTestStats logs).total_test_calls ∧
    ((computeTestStats logs).total_test_calls ≠ 0 →
      (computeTestStats logs).success_rate
        = (((computeTestStats logs).successful_calls : ℚ) /
            ((computeTestStats logs).total_test_calls : ℚ)) * 100) ∧
    ((computeTestStats logs).total_test_calls = 0 →
      (computeTestStats logs).success_rate = 0) := by
  have hle : ((logs.filter (fun call => call.is_test_call)).filter
        (fun call => successOutcomes.contains call.outcome)).length
      ≤ (logs.filter (fun call => call.is_test_call)).length :=
    List.length_filter_le _ _
  refine ⟨?_, ?_, ?_⟩
  · simp only [computeTestStats]
    omega
  · intro h
    simp only [computeTestStats] at h ⊢
    rw [if_pos (Nat.pos_of_ne_zero h)]
  · intro h
    simp only [computeTestStats] at h ⊢
    rw [if_neg (by omega)]

/-- Witness for `c6_stats_identities` at a one-element log collection. -/
theorem c6_stats_identities_witness :
    (computeTestStats [logInterested]).total_test_calls ≠ 0 ∧
    (computeTestStats [logInterested]).success_rate
      = (((computeTestStats [logInterested]).successful_calls : ℚ) /
          ((computeTestStats [logInterested]).total_test_calls : ℚ)) * 100 :=
  ⟨by decide, (c6_stats_identities [logInterested]).2.1 (by decide)⟩

/-- C10: after a resolved call-logs fetch (whatever the HTTP status flag
and whether the `logs` field is present), the stored CallLog collection
holds only entries whose `is_test_call` flag is true, so filtering the
stored collection by the test flag is the identity. -/
theorem c10_call_logs_ingest_filtered (rc : FetchOutcome (Option (List TestClient)))
    (ra : FetchOutcome (Option (List TestAgent))) (ok : Bool) (d : Option (List CallLog))
    (rac : FetchOutcome (Option (List ActiveCall))) (rh : FetchOutcome SystemHealth)
    (s : ControllerState) :
    (∀ log ∈ (loadData (some ResType.callLogs)
        { clients := rc, agents := ra, callLogs := FetchOutcome.success ok d,
          activeCalls := rac, health := rh } s).state.callLogs,
      log.is_test_call = true) ∧
    ((loadData (some ResType.callLogs)
        { clients := rc, agents := ra, callLogs := FetchOutcome.success ok d,
          activeCalls := rac, health := rh } s).state.callLogs).filter
        (fun log => log.is_test_call)
      = (loadData (some ResType.callLogs)
        { clients := rc, agents := ra, callLogs := FetchOutcome.success ok d,
          activeCalls := rac, health := rh } s).state.callLogs := by
  have hstate : (loadData (some ResType.callLogs)
      { clients := rc, agents := ra, callLogs := FetchOutcome.success ok d,
        activeCalls := rac, health := rh } s).state.callLogs
      = (d.getD []).filter (fun log => log.is_test_call) := rfl
  rw [hstate]
  constructor
  · intro log hlog
    exact (List.mem_filter.mp hlog).2
  · exact List.filter_eq_self.mpr (fun a ha => (List.mem_filter.mp ha).2)

/-- Witness for `c10_call_logs_ingest_filtered`: a call-logs load whose
backend returns one test-flagged log stores it, and the stored entry has
the test flag set. -/
theorem c10_call_logs_ingest_filtered_witness :
    logInterested.is_test_call = true :=
  (c10_call_logs_ingest_filtered FetchOutcome.failure FetchOutcome.failure true
      (some [logInterested]) FetchOutcome.failure FetchOutcome.failure initControllerState).1
    logInterested (by decide)

/-- C2: however the backend answers (including never answering with a
terminal status), every status fetch the polling subroutine issues happens
no later than the 300000 ms ceiling, hence within the ceiling plus one
5000 ms tick interval after `pollCallStatus` ran. -/
theorem c2_polling_bounded (resp : Nat → StatusFetchResult) (k : Nat)
    (h : tickFires resp k = true) :
    tickTime k ≤ pollCeilingMs ∧ tickTime k ≤ pollCeilingMs + pollIntervalMs := by
  have h2 : decide (tickTime k ≤ pollCeilingMs) = true :=
    ((Bool.and_eq_true _ _).mp h).2
  have h3 := of_decide_eq_true h2
  exact ⟨h3, Nat.le_trans h3 (Nat.le_add_right _ _)⟩

/-- Witness for `c2_polling_bounded`: the first tick of a poll against a
backend that always fails fires at 5000 ms, within the bound. -/
theorem c2_polling_bounded_witness :
    tickFires (fun _ => StatusFetchResult.failure) 0 = true ∧
    tickTime 0 ≤ pollCeilingMs ∧ tickTime 0 ≤ pollCeilingMs + pollIntervalMs :=
  ⟨by decide, c2_polling_bounded (fun _ => StatusFetchResult.failure) 0 (by decide)⟩

/-- Updating status and stage by SID leaves every `call_sid` unchanged, so
filtering out the SID afterwards is the same as filtering the original. -/
theorem filter_map_update (l : List ActiveCall) (sid status stage : String) :
    ((l.map (fun call => if call.call_sid = sid then
        { call with status := status, current_stage := stage } else call)).filter
      (fun call => call.call_sid != sid))
    = l.filter (fun call => call.call_sid != sid) := by
  induction l with
  | nil => rfl
  | cons a t ih =>
      by_cases h : a.call_sid = sid
      · simp [List.filter_cons, h, ih]
      · simp [List.filter_cons, h, ih]

/-- C3: a poll tick for `sid` whose status fetch resolves ok with a
terminal status clears the polling interval, triggers refreshes of the
call-logs and clients collections, and removes the `ActiveCall` entry for
`sid` (leaving every other entry and every other state field unchanged);
an ok non-terminal status leaves the interval running, triggers nothing,
and only rewrites the matching entry's status and stage in place. -/
theorem c3_poll_tick_transitions (s : ControllerState) (sid status stage : String) :
    (terminalStatuses.contains status = true →
      (pollTick sid (StatusFetchResult.ok status stage) s).cleared = true ∧
      (pollTick sid (StatusFetchResult.ok status stage) s).refreshes
        = [ResType.callLogs, ResType.clients] ∧
      (pollTick sid (StatusFetchResult.ok status stage) s).state
        = { s with activeCalls := s.activeCalls.filter (fun call => call.call_sid != sid) }) ∧
    (terminalStatuses.contains status = false →
      (pollTick sid (StatusFetchResult.ok status stage) s).cleared = false ∧
      (pollTick sid (StatusFetchResult.ok status stage) s).refreshes = [] ∧
      (pollTick sid (StatusFetchResult.ok status stage) s).state
        = { s with activeCalls := s.activeCalls.map (fun call =>
            if call.call_sid == sid then
              { call with status := status, current_stage := stage }
            else call) }) := by
  constructor
  · intro h
    refine ⟨?_, ?_, ?_⟩ <;> simp only [pollTick, h]
    · rfl
    · rfl
    · simp [filter_map_update]
  · intro h
    refine ⟨?_, ?_, ?_⟩ <;> simp only [pollTick, h]
    · rfl
    · rfl
    · simp

/-- Witness for `c3_poll_tick_transitions`: a completed status on CA7
clears the interval, refreshes call-logs and clients, and removes the
entry. -/
theorem c3_poll_tick_transitions_witness :
    (pollTick "CA7" (StatusFetchResult.ok "completed" "wrapped_up") sC3).cleared = true ∧
    (pollTick "CA7" (StatusFetchResult.ok "completed" "wrapped_up") sC3).refreshes
      = [ResType.callLogs, ResType.clients] ∧
    (pollTick "CA7" (StatusFetchResult.ok "completed" "wrapped_up") sC3).state
      = { sC3 with activeCalls := sC3.activeCalls.filter (fun call => call.call_sid != "CA7") } :=
  (c3_poll_tick_transitions sC3 "CA7" "completed" "wrapped_up").1 (by decide)

/-- C8: with either selector empty, `handleStartTestCall` is a no-op (no
POST, no toast, no poll, state identical); with both selectors filled it
issues exactly one initiation POST, inserts at most one `ActiveCall`, and
on a `success: true` response inserts exactly one entry carrying the
returned SID and starts exactly one polling subroutine for it. -/
theorem c8_start_test_call (resp : StartCallResult) (now : String) (s : ControllerState) :
    ((s.selectedClient = "" ∨ s.selectedAgent = "") →
       handleStartTestCall resp now s
         = { state := s, posts := 0, toasts := [], pollsStarted := [] }) ∧
    (s.selectedClient ≠ "" → s.selectedAgent ≠ "" →
       (handleStartTestCall resp now s).posts = 1 ∧
       (((handleStartTestCall resp now s).state.activeCalls = s.activeCalls ∧
           (handleStartTestCall resp now s).pollsStarted = []) ∨
        (∃ c : ActiveCall,
           (handleStartTestCall resp now s).state.activeCalls = s.activeCalls ++ [c])) ∧
       (∀ r : StartCallBody, resp = StartCallResult.parsed r → r.success = true →
         ∃ c : ActiveCall, c.call_sid = r.call_sid ∧
           (handleStartTestCall resp now s).state.activeCalls = s.activeCalls ++ [c] ∧
           (handleStartTestCall resp now s).pollsStarted = [r.call_sid])) := by
  constructor
  · intro h
    have hb : (s.selectedClient == "" || s.selectedAgent == "") = true := by
      rcases h with h | h <;> simp [h]
    simp [handleStartTestCall, hb]
  · intro h1 h2
    have hb : (s.selectedClient == "" || s.selectedAgent == "") = false := by
      simp [h1, h2]
    cases resp with
    | parsed r =>
        by_cases hs : r.success = true
        · refine ⟨by simp [handleStartTestCall, hb, hs], ?_, ?_⟩
          · right
            exact ⟨optimisticActiveCall r now, by simp [handleStartTestCall, hb, hs]⟩
          · intro r' hr' _
            cases hr'
            exact ⟨optimisticActiveCall r now, rfl,
              by simp [handleStartTestCall, hb, hs],
              by simp [handleStartTestCall, hb, hs]⟩
        · have hs' : r.success = false := by
            cases hr : r.success
            · rfl
            · exact absurd hr hs
          refine ⟨by simp [handleStartTestCall, hb, hs'], ?_, ?_⟩
          · left
            constructor <;> simp [handleStartTestCall, hb, hs']
          · intro r' hr' hsucc
            cases hr'
            exact absurd hsucc hs
    | failure =>
        refine ⟨by simp [handleStartTestCall, hb], ?_, ?_⟩
        · left
          constructor <;> simp [handleStartTestCall, hb]
        · intro r' hr' _
          cases hr'

/-- Witness for `c8_start_test_call`: a successful initiation from a state
with both selectors filled issues one POST and starts polling for CA1. -/
theorem c8_start_test_call_witness :
    (handleStartTestCall (StartCallResult.parsed startOkCA1) "2025-01-01T00:00:00Z" sStart).posts
        = 1 ∧
    (handleStartTestCall (StartCallResult.parsed startOkCA1)
        "2025-01-01T00:00:00Z" sStart).pollsStarted = ["CA1"] := by
  have h := (c8_start_test_call (StartCallResult.parsed startOkCA1)
      "2025-01-01T00:00:00Z" sStart).2 (by decide) (by decide)
  obtain ⟨c, _, _, hpoll⟩ := h.2.2 startOkCA1 rfl rfl
  exact ⟨h.1, hpoll⟩

/-- C9: when the backend answers the initiation POST with `success: false`
and a non-empty `detail`, `handleStartTestCall` inserts no `ActiveCall`,
starts no polling subroutine, shows exactly one error toast whose
description is the backend-provided detail text, and leaves the state
unchanged apart from resetting the in-progress flag it had just set. -/
theorem c9_start_test_call_app_failure (r : StartCallBody) (now : String)
    (s : ControllerState) (d : String)
    (h1 : s.selectedClient ≠ "") (h2 : s.selectedAgent ≠ "")
    (hs : r.success = false) (hd : r.detail = some d) (hne : d ≠ "") :
    handleStartTestCall (StartCallResult.parsed r) now s =
      { state := { s with isCallInProgress := false }
        posts := 1
        toasts := [{ kind := "error", title := "Test call failed", description := some d }]
        pollsStarted := [] } := by
  have hb : (s.selectedClient == "" || s.selectedAgent == "") = false := by
    simp [h1, h2]
  have hdb : (d == "") = false := by simp [hne]
  simp [handleStartTestCall, hb, hs, jsOr, hd, hdb]

/-- Witness for `c9_start_test_call_app_failure` on the spec's scenario:
the toast description is exactly "agent busy" and nothing is inserted. -/
theorem c9_start_test_call_app_failure_witness :
    handleStartTestCall (StartCallResult.parsed startBusyBody) "2025-01-01T00:00:00Z" sStart =
      { state := { sStart with isCallInProgress := false }
        posts := 1
        toasts := [{ kind := "error", title := "Test call failed",
                     description := some "agent busy" }]
        pollsStarted := [] } :=
  c9_start_test_call_app_failure startBusyBody "2025-01-01T00:00:00Z" sStart "agent busy"
    (by decide) (by decide) rfl rfl (by decide)

/-- C1 fails as stated: in a full load (`loadData()` with no type) all
branches share one try/catch, so a clients fetch that throws aborts the
remaining fetches of the same invocation.  Here the agents fetch would
resolve with `[agentA]`, yet the stored agents stay `[agentOld]`: the
remaining fetch was aborted rather than issued and resolved
independently. -/
theorem c1_counterexample :
    respC1.clients = FetchOutcome.failure ∧
    respC1.agents = FetchOutcome.success true (some [agentA]) ∧
    (loadData none respC1 sC1).state.testAgents = [agentOld] ∧
    agentOld ≠ agentA := by
  refine ⟨rfl, rfl, rfl, by decide⟩

/-- C1 (amended): a failing fetch never overwrites another resource kind's
stored state.  For a single-kind `load(resourceKind)` invocation, every
other kind's stored state is left unchanged whatever the response; in a
full load a clients fetch that throws leaves the entire state unchanged
except the loading flag, because it aborts the remaining branches of that
invocation (so the other kinds keep their old values rather than being
updated independently). -/
theorem c1_load_frame :
    (∀ (r rq : ResType) (resp : LoadResponses) (s : ControllerState),
       rq ≠ r → resourceUnchanged rq s (loadData (some r) resp s).state) ∧
    (∀ (resp : LoadResponses) (s : ControllerState),
       resp.clients = FetchOutcome.failure →
       (loadData none resp s).state = { s with isLoadingData := false }) := by
  constructor
  · intro r rq resp s h
    rcases resp with ⟨rc, ra, rl, rac, rh⟩
    cases r <;> cases rq <;> try exact absurd rfl h
    all_goals first
      | (cases rc <;> rfl)
      | (cases ra <;> rfl)
      | (cases rl <;> rfl)
      | (rcases rac with ⟨ok, d⟩ | _
         · cases ok <;> rfl
         · rfl)
      | (rcases rh with ⟨ok, d⟩ | _
         · cases ok <;> rfl
         · rfl)
  · intro resp s h
    rcases resp with ⟨rc, ra, rl, rac, rh⟩
    simp only at h
    subst h
    rfl

/-- Witness for `c1_load_frame`: a failing single-kind clients load leaves
the stored agents untouched. -/
theorem c1_load_frame_witness :
    resourceUnchanged ResType.agents sC1 (loadData (some ResType.clients) respC1 sC1).state :=
  c1_load_frame.1 ResType.clients ResType.agents respC1 sC1 (by decide)

/-- C7 is the claim the code was written to meet, but the stats branch of
`loadData` reads the `callLogs` closure variable, which still holds the
collection from before the fetch (`setCallLogs` only takes effect on the
next render).  On a full load into an empty state whose call-logs fetch
returns one fresh test log, the stored logs become `[freshTestLog]` while
the stored stats are computed from the empty pre-fetch collection
(`total_test_calls = 0` instead of 1). -/
theorem c7_stale_stats :
    (loadData none respC7 initControllerState).state.callLogs = [freshTestLog] ∧
    (loadData none respC7 initControllerState).state.testStats
      = some (computeTestStats initControllerState.callLogs) ∧
    (computeTestStats initControllerState.callLogs).total_test_calls = 0 ∧
    (computeTestStats
        ((loadData none respC7 initControllerState).state.callLogs)).total_test_calls = 1 ∧
    (loadData none respC7 initControllerState).state.testStats
      ≠ some (computeTestStats
          ((loadData none respC7 initControllerState).state.callLogs)) := by
  refine ⟨rfl, rfl, rfl, rfl, ?_⟩
  intro h
  have h0 : (computeTestStats initControllerState.callLogs).total_test_calls = 0 := rfl
  have h1 : (computeTestStats
      ((loadData none respC7 initControllerState).state.callLogs)).total_test_calls = 1 := rfl
  have h2 : (loadData none respC7 initControllerState).state.testStats
      = some (computeTestStats initControllerState.callLogs) := rfl
  rw [h2] at h
  have := Option.some.inj h
  rw [this] at h0
  rw [h0] at h1
  exact Nat.zero_ne_one h1

/-- C5 fails as stated: the unmount cleanup of the component's `useEffect`
clears only the background refresh interval; after a successful
`handleStartTestCall` the polling interval and ceiling timeout for CA1
survive the cleanup, and the first poll tick (at 5000 ms) still fires. -/
theorem c5_counterexample :
    effC5.pollsStarted = ["CA1"] ∧
    unmountCleanup (TimerKind.backgroundRefresh :: timersOfStart effC5)
      = [TimerKind.pollTicker "CA1", TimerKind.pollCeiling "CA1"] ∧
    tickFires (fun _ => StatusFetchResult.failure) 0 = true := by
  refine ⟨rfl, rfl, by decide⟩

/-- C5 (amended): the unmount cleanup always cancels the background
refresh interval (it never survives), but the timers of `pollCallStatus`
have no unmount cancellation path; their only bound is the ceiling
timeout, so after unmount an in-flight poll keeps issuing fetches, though
never later than the 300000 ms ceiling. -/
theorem c5_timer_cancellation :
    (∀ live : List TimerKind, TimerKind.backgroundRefresh ∉ unmountCleanup live) ∧
    (∀ (resp : Nat → StatusFetchResult) (k : Nat),
       tickFires resp k = true → tickTime k ≤ pollCeilingMs) := by
  constructor
  · intro live h
    simp [unmountCleanup, List.mem_filter] at h
  · intro resp k h
    exact of_decide_eq_true ((Bool.and_eq_true _ _).mp h).2

/-- Witness for `c5_timer_cancellation`: the first tick of a poll whose
backend keeps reporting a non-terminal status fires within the ceiling. -/
theorem c5_timer_cancellation_witness :
    tickFires (fun _ => StatusFetchResult.ok "ringing" "dialing") 0 = true ∧
    tickTime 0 ≤ pollCeilingMs :=
  ⟨by decide, c5_timer_cancellation.2 (fun _ => StatusFetchResult.ok "ringing" "dialing") 0
    (by decide)⟩

/-- The in-place status/stage update of a poll tick preserves the list of
call SIDs. -/
theorem sids_map_update (l : List ActiveCall) (sid status stage : String) :
    (l.map (fun call => if call.call_sid == sid then
        { call with status := status, current_stage := stage } else call)).map
      (fun call => call.call_sid) = l.map (fun call => call.call_sid) := by
  induction l with
  | nil => rfl
  | cons a t ih =>
      simp only [List.map_cons, ih, List.cons.injEq, and_true]
      by_cases h : a.call_sid = sid
      · simp [h]
      · simp [h]

/-- A poll tick never adds SIDs: the resulting SID list is a sublist of
the previous one. -/
theorem sids_pollTick_sublist (sid : String) (r : StatusFetchResult) (s : ControllerState) :
    List.Sublist (sids ((pollTick sid r s).state)) (sids s) := by
  cases r with
  | ok status stage =>
      by_cases h : terminalStatuses.contains status = true
      · simp only [pollTick, h, if_true]
        have h1 : List.Sublist
            ((s.activeCalls.map (fun call => if call.call_sid == sid then
              { call with status := status, current_stage := stage } else call)).filter
            (fun call => call.call_sid != sid))
            (s.activeCalls.map (fun call => if call.call_sid == sid then
              { call with status := status, current_stage := stage } else call)) :=
          List.filter_sublist _
        have h2 := List.Sublist.map (fun call => call.call_sid) h1
        rw [sids_map_update] at h2
        exact h2
      · have h' : terminalStatuses.contains status = false := by
          cases hc : terminalStatuses.contains status
          · rfl
          · exact absurd hc h
        simp only [pollTick, h']
        show List.Sublist ((s.activeCalls.map (fun call => if call.call_sid == sid then
            { call with status := status, current_stage := stage } else call)).map
          (fun call => call.call_sid)) (sids s)
        rw [sids_map_update]
        exact List.Sublist.refl _
  | notOk => exact List.Sublist.refl _
  | failure => exact List.Sublist.refl _

/-- After a terminal tick for a SID, that SID is gone from the stored
active calls. -/
theorem pollTick_terminal_not_mem (s : ControllerState) (sid status stage : String)
    (h : terminalStatuses.contains status = true) :
    sid ∉ sids ((pollTick sid (StatusFetchResult.ok status stage) s).state) := by
  simp only [pollTick, h, if_true]
  intro hmem
  rcases List.mem_map.mp hmem with ⟨call, hcall, hsid⟩
  have hp := (List.mem_filter.mp hcall).2
  rw [hsid] at hp
  simp at hp

/-- A `handleStartTestCall` invocation either leaves the SID list alone or
(exactly when the response is a parsed success) appends the returned SID. -/
theorem sids_startCall (resp : StartCallResult) (now : String) (s : ControllerState) :
    sids ((handleStartTestCall resp now s).state) = sids s ∨
    (∃ r : StartCallBody, resp = StartCallResult.parsed r ∧ r.success = true ∧
       sids ((handleStartTestCall resp now s).state) = sids s ++ [r.call_sid]) := by
  unfold handleStartTestCall
  by_cases hg : (s.selectedClient == "" || s.selectedAgent == "") = true
  · rw [if_pos hg]
    left
    rfl
  · rw [if_neg hg]
    cases resp with
    | parsed r =>
        by_cases hs : r.success = true
        · right
          refine ⟨r, rfl, hs, ?_⟩
          simp only [hs, if_true]
          simp [sids, optimisticActiveCall]
        · left
          have hs' : r.success = false := by
            cases hc : r.success
            · rfl
            · exact absurd hc hs
          simp [hs', sids]
    | failure =>
        left
        rfl

/-- One allowed event preserves the uniqueness of stored SIDs. -/
theorem nodup_sids_step (e : ControllerEvent) (s : ControllerState)
    (ha : eventAllowed e s = true) (hn : (sids s).Nodup) :
    (sids (stepEvent e s)).Nodup := by
  cases e with
  | startCall resp now =>
      rcases sids_startCall resp now s with h | ⟨r, hr, hs, h⟩
      · rw [stepEvent, h]
        exact hn
      · rw [stepEvent, h]
        subst hr
        simp only [eventAllowed, hs] at ha
        simp at ha
        simp [List.nodup_append, hn, ha]
  | pollTickEv sid r =>
      exact hn.sublist (sids_pollTick_sublist sid r s)
  | refetchActive resp =>
      simp [eventAllowed] at ha

/-- One allowed event that is not a successful start for `sid` cannot make
`sid` appear among the stored SIDs. -/
theorem not_mem_sids_step (e : ControllerEvent) (s : ControllerState) (sid : String)
    (ha : eventAllowed e s = true) (hs : startsFor sid e = false) (h : sid ∉ sids s) :
    sid ∉ sids (stepEvent e s) := by
  cases e with
  | startCall resp now =>
      rcases sids_startCall resp now s with he | ⟨r, hr, hsucc, he⟩
      · rw [stepEvent, he]
        exact h
      · rw [stepEvent, he]
        subst hr
        simp only [startsFor, hsucc, Bool.true_and] at hs
        intro hmem
        rcases List.mem_append.mp hmem with hmem | hmem
        · exact h hmem
        · rcases List.mem_singleton.mp hmem with rfl
          simp at hs
  | pollTickEv psid r =>
      intro hmem
      exact h ((sids_pollTick_sublist psid r s).subset hmem)
  | refetchActive resp =>
      simp [eventAllowed] at ha

/-- Along any allowed trace, uniqueness of the stored SIDs is invariant. -/
theorem nodup_sids_runEvents (es : List ControllerEvent) (s : ControllerState)
    (hg : goodTrace es s = true) (hn : (sids s).Nodup) :
    (sids (runEvents es s)).Nodup := by
  induction es generalizing s with
  | nil => exact hn
  | cons e t ih =>
      rw [runEvents_cons]
      simp only [goodTrace, Bool.and_eq_true] at hg
      exact ih (stepEvent e s) hg.2 (nodup_sids_step e s hg.1 hn)

/-- Along any allowed trace containing no successful start for `sid`, an
absent `sid` stays absent. -/
theorem not_mem_sids_runEvents (es : List ControllerEvent) (s : ControllerState) (sid : String)
    (hg : goodTrace es s = true) (hstart : es.all (fun e => !startsFor sid e) = true)
    (h : sid ∉ sids s) : sid ∉ sids (runEvents es s) := by
  induction es generalizing s with
  | nil => exact h
  | cons e t ih =>
      rw [runEvents_cons]
      simp only [goodTrace, Bool.and_eq_true] at hg
      simp only [List.all_cons, Bool.and_eq_true, Bool.not_eq_true'] at hstart
      refine ih (stepEvent e s) hg.2 ?_ (not_mem_sids_step e s sid hg.1 hstart.1 h)
      simp only [List.all_eq_true] at hstart ⊢
      intro x hx
      exact hstart.2 x hx

/-- C4 fails as stated: active-calls re-fetches replace the collection
wholesale with backend data, so a terminated SID can reappear without a
new `startTestCall`.  After a successful start for CA1 and a terminal poll
tick (CA1 is gone), a single active-calls re-fetch — which is not a start
for CA1 — brings CA1 back. -/
theorem c4_counterexample :
    ((sids (runEvents [evC4Start, evC4Term] sStart)).contains "CA1" = false) ∧
    startsFor "CA1" evC4Refetch = false ∧
    ((sids (runEvents [evC4Start, evC4Term, evC4Refetch] sStart)).contains "CA1" = true) := by
  refine ⟨by decide, rfl, by decide⟩

/-- C4 (amended): under interleavings of `startTestCall` invocations and
polling ticks — excluding wholesale active-calls re-fetches, and provided
each successful start returns a SID not currently stored (the code appends
without checking) — the activeCalls collection keeps at most one entry per
call SID; a terminal tick for a SID removes its entry at once, and an
absent SID cannot reappear unless a successful start for it occurs.
Active-calls re-fetches replace the collection with arbitrary backend data
and can reintroduce or duplicate entries, as the counterexample shows. -/
theorem c4_active_call_uniqueness :
    (∀ (es : List ControllerEvent) (s : ControllerState),
       goodTrace es s = true → (sids s).Nodup → (sids (runEvents es s)).Nodup) ∧
    (∀ (s : ControllerState) (sid status stage : String),
       terminalStatuses.contains status = true →
       sid ∉ sids ((pollTick sid (StatusFetchResult.ok status stage) s).state)) ∧
    (∀ (es : List ControllerEvent) (s : ControllerState) (sid : String),
       goodTrace es s = true → es.all (fun e => !startsFor sid e) = true →
       sid ∉ sids s → sid ∉ sids (runEvents es s)) := by
  refine ⟨nodup_sids_runEvents, pollTick_terminal_not_mem, ?_⟩
  intro es s sid hg hstart h
  exact not_mem_sids_runEvents es s sid hg hstart h

/-- Witness for `c4_active_call_uniqueness`: running a fresh start for CA1
followed by its terminal tick keeps the SID list duplicate-free, and CA1
stays absent afterwards under a further terminal tick for another SID. -/
theorem c4_active_call_uniqueness_witness :
    (sids (runEvents [evC4Start, evC4Term] sStart)).Nodup ∧
    "CA1" ∉ sids (runEvents [ControllerEvent.pollTickEv "CA2"
        (StatusFetchResult.ok "completed" "wrapped_up")]
      (runEvents [evC4Start, evC4Term] sStart)) :=
  ⟨c4_active_call_uniqueness.1 [evC4Start, evC4Term] sStart (by decide) (by decide),
   c4_active_call_uniqueness.2.2 [ControllerEvent.pollTickEv "CA2"
        (StatusFetchResult.ok "completed" "wrapped_up")]
      (runEvents [evC4Start, evC4Term] sStart) "CA1" (by decide) (by decide) (by decide)⟩

end VoiceAgentDashboard
